import Mathlib

/-!
Verification development for the ProfileFed reference implementation
(package `profilefed` and its `webfinger` subpackage).

The Go sources are shallowly embedded as executable Lean definitions:

* Byte strings (`[]byte`) are lists of naturals; Go strings are lists of
  characters.
* Standard base64 is injective and `decode (encode b) = b`, so an encoded
  wire value is modelled by the bytes it decodes to (`Wire.enc b`) or by
  the marker `Wire.invalid` for a string that fails to decode.
* Ed25519 is modelled by an abstract verification oracle (`EdScheme`);
  the Go `ed25519.Verify` guard rejecting signatures that are not exactly
  64 bytes long is kept explicitly (`edVerify`).  Server-side signing is an
  `EdSigner` whose signatures are 64 bytes and verify against the matching
  public key.
* JSON marshalling and unmarshalling are abstract codec parameters
  (`Bytes → Option _` and `_ → Option Bytes`).
* HTTP transport is a `World` value holding the response each GET would
  observe; `Client.lookup` performs at most one server-info fetch per run,
  so one server-info response slot suffices.
* The client's pubkey store is the `DefaultClient` in-memory map, modelled
  as an association list with unique keys.

The embedding of `Client.lookup` starts after the WebFinger link has been
resolved and its `href` parsed; `host` is the host of the profile URL.
-/

deriving instance DecidableEq for Except

namespace ProfileFed

/-- Byte strings (`[]byte`) as lists of naturals. -/
abbrev Bytes := List Nat

/-- Go strings as lists of characters. -/
abbrev Str := List Char

/-- A base64-carrying wire value: either the encoding of some bytes, or a
string that is not valid base64. -/
inductive Wire where
  | invalid : Wire
  | enc : Bytes → Wire
deriving DecidableEq

/-- base64.StdEncoding.DecodeString on a wire value. -/
def wireDec : Wire → Option Bytes
  | .invalid => none
  | .enc b => some b

/-- An abstract Ed25519 verification oracle. -/
structure EdScheme where
  verifyRaw : Bytes → Bytes → Bytes → Bool

/-- ed25519.Verify(pub, message, sig): Go returns false whenever the
signature is not exactly 64 bytes, otherwise the cryptographic check runs. -/
def edVerify (E : EdScheme) (pk msg sig : Bytes) : Bool :=
  decide (sig.length = 64) && E.verifyRaw pk msg sig

/-- Ed25519 with signing, as the server handlers use it: signatures are
64 bytes long and verify against the signer's public key and the signed
message. -/
structure EdSigner extends EdScheme where
  pub : Bytes → Bytes
  sign : Bytes → Bytes → Bytes
  sign_len : ∀ sk msg, (sign sk msg).length = 64
  verify_sign : ∀ sk msg, verifyRaw (pub sk) msg (sign sk msg) = true

/-- The DefaultClient in-memory pubkey store (client.go lines 35-53):
a map from server name to public key, as an association list. -/
abbrev Store := List (Str × Bytes)

/-- sync.Map.Delete on the default store: remove the binding for the name. -/
def storeDel : Store → Str → Store
  | [], _ => []
  | e :: t, n => if e.1 = n then storeDel t n else e :: storeDel t n

/-- sync.Map.Store on the default store: the new binding replaces any old
binding for the same name. -/
def storeSet (s : Store) (n : Str) (k : Bytes) : Store :=
  (n, k) :: storeDel s n

/-- GetPubkey of DefaultClient (client.go lines 45-51): sync.Map.Load;
`none` models ErrPubkeyNotFound. -/
def getPubkey : Store → Str → Option Bytes
  | [], _ => none
  | e :: t, n => if e.1 = n then some e.2 else getPubkey t n

/-- SavePubkey of DefaultClient (client.go lines 38-44): store the key
under the server name, then delete every previous name, in order. -/
def savePubkey (s : Store) (n : Str) (prev : List Str) (k : Bytes) : Store :=
  prev.foldl storeDel (storeSet s n k)

/-- serverInfoData (client.go lines 32-36 of server_info.go): the JSON wire
object served by /_profilefed/server; the pubkey field carries base64. -/
structure ServerInfoData where
  serverName : Str
  previousNames : List Str
  pubkey : Wire
deriving DecidableEq

/-- An HTTP response as the client observes it: status code, body bytes
(read under the 32 MB limit), the X-ProfileFed-Sig header (`none` models an
absent or empty header) and the X-ProfileFed-Previous header values. -/
structure HResp where
  status : Nat
  body : Bytes
  sig : Option Wire
  prev : List Wire
deriving DecidableEq

/-- The network as one run of Client.lookup sees it: the response of
GET /_profilefed/server and the response of the profile-descriptor GET.
A single run fetches server info at most once (the first-contact branch
and the rotation branch are mutually exclusive). -/
structure World where
  infoResp : HResp
  profResp : HResp
deriving DecidableEq

/-- The errors Client.lookup can return, other than transport failures. -/
inductive LookupError where
  | httpStatus (op : Str) (code : Nat)
  | noSignature
  | badBase64
  | badJson
  | sigMismatch
deriving DecidableEq

/-- getSignature (client.go lines 319-325): a missing header is
ErrNoSignature, otherwise the value is base64-decoded, which may fail. -/
def getSignature (sig : Option Wire) : Except LookupError Bytes :=
  match sig with
  | none => .error .noSignature
  | some .invalid => .error .badBase64
  | some (.enc b) => .ok b

/-- getPrevSignatures (client.go lines 305-316): decode every
X-ProfileFed-Previous value, silently skipping invalid base64. -/
def getPrevSignatures (prev : List Wire) : List Bytes :=
  prev.filterMap wireDec

/-- checkResp (client.go lines 328-333): any non-200 status is an error
carrying the operation name and status. -/
def checkResp (r : HResp) (op : Str) : Except LookupError Unit :=
  if r.status = 200 then .ok () else .error (.httpStatus op r.status)

/-- The operation name "getServerInfo". -/
def opServerInfo : Str := ['g', 'e', 't', 'S', 'e', 'r', 'v', 'e', 'r', 'I', 'n', 'f', 'o']

/-- The operation name "getProfileDescriptor". -/
def opProfile : Str :=
  ['g', 'e', 't', 'P', 'r', 'o', 'f', 'i', 'l', 'e', 'D', 'e', 's', 'c', 'r', 'i', 'p', 't', 'o', 'r']

/-- getServerInfo (client.go lines 278-302): check the status, extract the
signature header, then read the body and collect the previous signatures. -/
def getServerInfo (r : HResp) : Except LookupError (Bytes × Bytes × List Bytes) :=
  match checkResp r opServerInfo with
  | .error e => .error e
  | .ok _ =>
    match getSignature r.sig with
    | .error e => .error e
    | .ok sig => .ok (r.body, sig, getPrevSignatures r.prev)

/-- The first-contact rename audit (client.go lines 148-171).  For each
previous name whose key is in the store: if the stored key verifies the
main signature, the Go `break` leaves the outer loop and the audit
succeeds for all remaining names.  Otherwise the inner loop over the
previous signatures runs, but its `break` statement only leaves the inner
loop, so control always falls through to `return ErrSignatureMismatch`;
the inner loop therefore has no observable effect, which the embedding
records as a discarded computation. -/
def renameAudit (E : EdScheme) (s : Store) (data sig : Bytes)
    (prevSigs : List Bytes) : List Str → Except LookupError Unit
  | [] => .ok ()
  | n :: rest =>
    match getPubkey s n with
    | none => renameAudit E s data sig prevSigs rest
    | some pk =>
      if edVerify E pk data sig then
        .ok ()
      else
        let _deadInnerLoop := prevSigs.any (fun ps => edVerify E pk data ps)
        .error .sigMismatch

/-- Lines 187-272 of Client.lookup: fetch the profile descriptor, verify
it with `pk`, and on a mismatch run the rotation ceremony unless the key
was saved earlier in the same lookup.  Returns the verified body bytes and
the final store.  The self-consistency check keeps the argument order
written in the source (client.go line 260): the message passed to Verify
is the info signature and the signature argument is the server data. -/
def fetchVerify (E : EdScheme) (uinfo : Bytes → Option ServerInfoData)
    (host : Str) (w : World) (s : Store) (pk : Bytes) (saved : Bool) :
    Except LookupError Bytes × Store :=
  match checkResp w.profResp opProfile with
  | .error e => (.error e, s)
  | .ok _ =>
    match getSignature w.profResp.sig with
    | .error e => (.error e, s)
    | .ok sig =>
      if edVerify E pk w.profResp.body sig then (.ok w.profResp.body, s)
      else if saved then (.error .sigMismatch, s)
      else
        match getServerInfo w.infoResp with
        | .error e => (.error e, s)
        | .ok (serverData, infoSig, sigs) =>
          match uinfo serverData with
          | none => (.error .badJson, s)
          | some info =>
            match wireDec info.pubkey with
            | none => (.error .badBase64, s)
            | some newPk =>
              if pk = newPk then (.error .sigMismatch, s)
              else if sigs.any (fun ps => edVerify E pk serverData ps) then
                if edVerify E newPk infoSig serverData then
                  if edVerify E newPk w.profResp.body sig then
                    (.ok w.profResp.body, savePubkey s host info.previousNames newPk)
                  else (.error .sigMismatch, savePubkey s host info.previousNames newPk)
                else (.error .sigMismatch, s)
              else (.error .sigMismatch, s)

/-- Client.lookup (client.go lines 120-275) after the profile link's URL
has been parsed.  On a pubkey-store miss the first-contact branch fetches
and decodes the server info, runs the rename audit, decodes and saves the
advertised key, and continues with `saved = true`.  On success the
verified body bytes are returned; the final json.Unmarshal into the
caller's destination is modelled separately. -/
def lookupCore (E : EdScheme) (uinfo : Bytes → Option ServerInfoData)
    (host : Str) (w : World) (s0 : Store) : Except LookupError Bytes × Store :=
  match getPubkey s0 host with
  | some pk => fetchVerify E uinfo host w s0 pk false
  | none =>
    match getServerInfo w.infoResp with
    | .error e => (.error e, s0)
    | .ok (data, sig, prevSigs) =>
      match uinfo data with
      | none => (.error .badJson, s0)
      | some info =>
        match renameAudit E s0 data sig prevSigs info.previousNames with
        | .error e => (.error e, s0)
        | .ok _ =>
          match wireDec info.pubkey with
          | none => (.error .badBase64, s0)
          | some pk =>
            fetchVerify E uinfo host w (savePubkey s0 host info.previousNames pk) pk true

/-- Extra (types.go lines 37-46): additional user data under a namespace;
`data` holds the raw JSON message bytes. -/
structure ExtraE where
  namespaceUrl : Str
  typ : Str
  data : Bytes
deriving DecidableEq

/-- Descriptor (types.go lines 18-34): a ProfileFed profile descriptor. -/
structure Descriptor where
  id : Str
  namespaces : List Str
  displayName : Str
  username : Str
  bio : Str
  role : Str
  extra : List ExtraE
deriving DecidableEq

/-- The role string "user" (RoleUser in types.go). -/
def roleUser : Str := ['u', 's', 'e', 'r']

/-- The tail of a successful single-descriptor lookup in the current
client (client.go line 274): json.Unmarshal(data, dest) with no
post-processing, used by Lookup, LookupID, LookupWebFinger and
LookupWebFingerID alike. -/
def lookupSingle (E : EdScheme) (uinfo : Bytes → Option ServerInfoData)
    (udesc : Bytes → Option Descriptor) (host : Str) (w : World) (s0 : Store) :
    Except LookupError Descriptor × Store :=
  match lookupCore E uinfo host w s0 with
  | (.error e, s) => (.error e, s)
  | (.ok data, s) =>
    match udesc data with
    | none => (.error .badJson, s)
    | some d => (.ok d, s)

/-- The tail of the earlier Client.Lookup variant (part_004 lines 192-202):
decode the descriptor, then replace an empty role with RoleUser. -/
def lookupSingleOld (E : EdScheme) (uinfo : Bytes → Option ServerInfoData)
    (udesc : Bytes → Option Descriptor) (host : Str) (w : World) (s0 : Store) :
    Except LookupError Descriptor × Store :=
  match lookupCore E uinfo host w s0 with
  | (.error e, s) => (.error e, s)
  | (.ok data, s) =>
    match udesc data with
    | none => (.error .badJson, s)
    | some d => (.ok (if d.role = [] then { d with role := roleUser } else d), s)

/-- strings.Cut(s, sep) for a one-character separator: split around the
first occurrence of `sep`; `none` when `sep` does not occur in `s`. -/
def cutList (sep : Char) : Str → Option (Str × Str)
  | [] => none
  | c :: rest =>
    if c = sep then some ([], rest)
    else (cutList sep rest).map (fun p => (c :: p.1, p.2))

/-- The part of `s` before the first occurrence of `sep`, or all of `s`
when `sep` is absent — strings.Cut's first return value. -/
def cutBefore (sep : Char) (s : Str) : Str :=
  match cutList sep s with
  | none => s
  | some p => p.1

/-- The namespaces step of Descriptor.AddExtra (part_006 lines 19-24):
strip the fragment from the namespace URL, then install the bare URL in
`namespaces` unless already present. -/
def addExtraNs (d : Descriptor) (ns : Str) : Descriptor :=
  if cutBefore '#' ns ∈ d.namespaces then d
  else { d with namespaces := d.namespaces ++ [cutBefore '#' ns] }

/-- Descriptor.AddExtra (part_006 lines 18-37).  The namespaces update
happens before the JSON marshal, so a failed marshal leaves the namespace
installed, while `extra` is appended only on success.  The appended entry
keeps the original fragment-bearing namespace.  Returns the updated
descriptor and whether the call succeeded (Go returns a nil error). -/
def addExtra {α : Type} (marshal : α → Option Bytes) (d : Descriptor)
    (ns etype : Str) (x : α) : Descriptor × Bool :=
  match marshal x with
  | none => (addExtraNs d ns, false)
  | some msg =>
    ({ addExtraNs d ns with extra := (addExtraNs d ns).extra ++ [⟨ns, etype, msg⟩] }, true)

/-- The output a handler writes: the body bytes, the X-ProfileFed-Sig
header and the X-ProfileFed-Previous headers.  (Content-Type headers are
not modelled; no claim concerns them.) -/
structure HandlerOutput where
  body : Bytes
  sigHdr : Wire
  prevHdrs : List Wire
deriving DecidableEq

/-- The map of descriptors returned by the all-descriptors hook. -/
abbrev DescMap := List (Str × Descriptor)

/-- Handler.ServeHTTP of the profile handler (part_006 lines 58-96):
choose the all-descriptors or single-descriptor hook by the `all=1`
query, marshal the chosen result, sign the marshalled bytes with the
private key and write those same bytes.  A hook error or marshal failure
goes to the error handler and produces no signed output. -/
def profileServeHTTP (S : EdSigner) (priv : Bytes) (allQ : Bool)
    (allRes : Option DescMap) (oneRes : Option Descriptor)
    (marshalMap : DescMap → Option Bytes)
    (marshalDesc : Descriptor → Option Bytes) : Option HandlerOutput :=
  match (if allQ then allRes.bind marshalMap else oneRes.bind marshalDesc) with
  | none => none
  | some data =>
    some { body := data, sigHdr := .enc (S.sign priv data), prevHdrs := [] }

/-- ServerInfoHandler.ServeHTTP (server_info.go lines 38-63): marshal the
server-info document once, add one X-ProfileFed-Previous header per
previous key (each signing the marshalled bytes), sign the same bytes
with the current private key, and write those bytes. -/
def serverInfoServeHTTP (S : EdSigner)
    (marshalInfo : ServerInfoData → Option Bytes)
    (name : Str) (prevNames : List Str) (publicKey : Bytes)
    (priv : Bytes) (prevKeys : List Bytes) : Option HandlerOutput :=
  match marshalInfo { serverName := name, previousNames := prevNames,
                      pubkey := .enc publicKey } with
  | none => none
  | some data =>
    some { body := data, sigHdr := .enc (S.sign priv data),
           prevHdrs := prevKeys.map (fun k => .enc (S.sign k data)) }

/-- strings.HasPrefix(s, pre): does `s` start with `pre`? -/
def hasPre : Str → Str → Bool
  | _, [] => true
  | [], _ :: _ => false
  | c :: cs, p :: ps => c = p && hasPre cs ps

/-- The string "acct:". -/
def acctScheme : Str := ['a', 'c', 'c', 't', ':']

/-- The error message "invalid acct id". -/
def invalidAcctMsg : Str :=
  ['i', 'n', 'v', 'a', 'l', 'i', 'd', ' ', 'a', 'c', 'c', 't', ' ', 'i', 'd']

/-- webfinger.LookupAcct (part_001 lines 43-52) up to the Lookup call:
strings.Cut splits `id` around its first '@'; without an '@' the call
fails with "invalid acct id"; the "acct:" scheme is prepended to the
resource when missing.  Returns the resource and server handed to
webfinger.Lookup. -/
def lookupAcct (id : Str) : Except Str (Str × Str) :=
  match cutList '@' id with
  | none => .error invalidAcctMsg
  | some p =>
    let id1 := if hasPre id acctScheme then id else acctScheme ++ id
    .ok (id1, p.2)

/-! Concrete scenario used to settle claim C1: a legitimate rotation.
The stored key `[1]` fails to verify the profile body; the re-fetched
server info advertises the new key `[2]`, carries a continuity signature
by `[1]` and a self-consistency signature by `[2]` over the exact info
body.  The oracle accepts exactly those two genuine signatures. -/

/-- The server-info body bytes of the C1 scenario (2 bytes long, so it can
never be mistaken for a 64-byte signature). -/
def sdC1 : Bytes := [20, 21]

/-- The continuity signature by the old key in the C1 scenario. -/
def psC1 : Bytes := List.replicate 64 3

/-- The info signature by the new key in the C1 scenario. -/
def isC1 : Bytes := List.replicate 64 7

/-- The C1 verification oracle: the old key `[1]` signs the info body via
`psC1`, the new key `[2]` signs it via `isC1`; nothing else verifies. -/
def edC1 : EdScheme :=
  ⟨fun pk msg sig =>
    (pk == [1] && msg == sdC1 && sig == psC1) ||
    (pk == [2] && msg == sdC1 && sig == isC1)⟩

/-- The C1 JSON decoder: the info body parses to a document advertising
key `[2]` with no previous names. -/
def uinfoC1 : Bytes → Option ServerInfoData :=
  fun b => if b = sdC1 then some ⟨['h'], [], .enc [2]⟩ else none

/-- The C1 network: a well-formed server-info response and a profile
response whose signature does not verify under the stored key. -/
def wC1 : World :=
  { infoResp := ⟨200, sdC1, some (.enc isC1), [.enc psC1]⟩,
    profResp := ⟨200, [10], some (.enc (List.replicate 64 9)), []⟩ }

/-- C1: the rotation ceremony is claimed to proceed past the continuity
check if and only if `Verify(new_pk, info_body, info_sig)` succeeds.  The
source instead evaluates `Verify(new_pk, info_sig, info_body)` (client.go
line 260, arguments inverted), which is false whenever the info body is
not exactly 64 bytes.  At this input the genuine self-consistency check
succeeds and the continuity check succeeds, yet the lookup returns
SignatureMismatch and saves nothing. -/
theorem c1_rotation_inverted_check :
    lookupCore edC1 uinfoC1 ['h'] wC1 [(['h'], [1])]
        = (.error .sigMismatch, [(['h'], [1])])
    ∧ edVerify edC1 [2] sdC1 isC1 = true
    ∧ (getPrevSignatures wC1.infoResp.prev).any
        (fun ps => edVerify edC1 [1] sdC1 ps) = true := by
  decide

/-! Concrete scenario used to settle claim C2: a first contact where the
server advertises one previous name whose stored key does not verify the
main info signature but does verify one X-ProfileFed-Previous signature. -/

/-- The server-info body bytes of the C2 scenario. -/
def bC2 : Bytes := [30, 31]

/-- The previous signature by the old name's stored key in C2. -/
def psC2 : Bytes := List.replicate 64 4

/-- The C2 oracle: the stored key `[1]` of the previous name signs the
info body via `psC2` only. -/
def edC2 : EdScheme :=
  ⟨fun pk msg sig => pk == [1] && msg == bC2 && sig == psC2⟩

/-- The C2 JSON decoder: the info body advertises key `[2]` and lists the
previous name "old". -/
def uinfoC2 : Bytes → Option ServerInfoData :=
  fun b => if b = bC2 then some ⟨['h'], [['o', 'l', 'd']], .enc [2]⟩ else none

/-- The C2 network: the server-info response carries a main signature that
the old key does not verify plus a previous signature that it does. -/
def wC2 : World :=
  { infoResp := ⟨200, bC2, some (.enc (List.replicate 64 9)), [.enc psC2]⟩,
    profResp := ⟨200, [10], some (.enc (List.replicate 64 8)), []⟩ }

/-- C2: the spec (and the code's own comment) say a previous name is also
attested when some decoded X-ProfileFed-Previous signature verifies under
the stored key, and the lookup must not fail for that name.  In the
source, the inner loop's `break` only leaves the inner loop and control
falls through to `return ErrSignatureMismatch` (client.go lines 161-169),
so the lookup fails even though such a signature exists. -/
theorem c2_prev_sig_cannot_attest :
    lookupCore edC2 uinfoC2 ['h'] wC2 [(['o', 'l', 'd'], [1])]
        = (.error .sigMismatch, [(['o', 'l', 'd'], [1])])
    ∧ (getPrevSignatures wC2.infoResp.prev).any
        (fun ps => edVerify edC2 [1] bC2 ps) = true := by
  decide

/-- The fetch-and-verify phase changes the store only through the single
rotation save keyed by the lookup host. -/
theorem fetchVerify_store_cases (E : EdScheme)
    (uinfo : Bytes → Option ServerInfoData) (host : Str) (w : World)
    (s : Store) (pk : Bytes) (saved : Bool) :
    (fetchVerify E uinfo host w s pk saved).2 = s ∨
      ∃ names k, (fetchVerify E uinfo host w s pk saved).2 = savePubkey s host names k := by
  unfold fetchVerify
  repeat' split
  all_goals first
    | exact Or.inl rfl
    | exact Or.inr ⟨_, _, rfl⟩

/-- When the key was saved earlier in the same lookup, the fetch-and-verify
phase never touches the store again. -/
theorem fetchVerify_saved_store (E : EdScheme)
    (uinfo : Bytes → Option ServerInfoData) (host : Str) (w : World)
    (s : Store) (pk : Bytes) :
    (fetchVerify E uinfo host w s pk true).2 = s := by
  unfold fetchVerify
  repeat' split
  all_goals simp_all

/-! Concrete scenario used to settle claim C3: a first contact whose
server info is accepted and saved, after which the profile signature
fails to verify.  The lookup returns SignatureMismatch with the store
already mutated. -/

/-- The C3 oracle rejects every signature. -/
def edC3 : EdScheme := ⟨fun _ _ _ => false⟩

/-- The C3 JSON decoder: the info body advertises key `[5]` with no
previous names. -/
def uinfoC3 : Bytes → Option ServerInfoData :=
  fun b => if b = [40] then some ⟨['h'], [], .enc [5]⟩ else none

/-- The C3 network: well-formed responses whose signatures never verify. -/
def wC3 : World :=
  { infoResp := ⟨200, [40], some (.enc (List.replicate 64 1)), []⟩,
    profResp := ⟨200, [41], some (.enc (List.replicate 64 2)), []⟩ }

/-- C3 counterexample: starting from an empty store, this lookup returns
SignatureMismatch (at the `pubkeySaved` guard, client.go line 223) with
the store mutated by the first-contact SavePubkey — so a SavePubkey call
does take effect before the SignatureMismatch error is returned. -/
theorem c3_cex_save_before_mismatch :
    (lookupCore edC3 uinfoC3 ['h'] wC3 []).1 = .error .sigMismatch
    ∧ (lookupCore edC3 uinfoC3 ['h'] wC3 []).2 ≠ ([] : Store) := by
  decide

/-- C3 as amended: on every path of the client lookup that returns
SignatureMismatch, the pubkey store is either unchanged or equal to the
result of the single SavePubkey for the lookup host performed earlier in
the same run (the first-contact save or the rotation save, whose effect
persists when the subsequent profile re-verification fails). -/
theorem c3_amended_store_on_mismatch (E : EdScheme)
    (uinfo : Bytes → Option ServerInfoData) (host : Str) (w : World)
    (s0 : Store)
    (_h : (lookupCore E uinfo host w s0).1 = .error .sigMismatch) :
    (lookupCore E uinfo host w s0).2 = s0 ∨
      ∃ names k, (lookupCore E uinfo host w s0).2 = savePubkey s0 host names k := by
  unfold lookupCore
  split
  · exact fetchVerify_store_cases ..
  · repeat' split
    all_goals try exact Or.inl rfl
    rw [fetchVerify_saved_store]
    exact Or.inr ⟨_, _, rfl⟩

/-- C3 witness: the amended statement evaluated at the C3 scenario. -/
theorem c3_amended_witness :
    (lookupCore edC3 uinfoC3 ['h'] wC3 []).1 = .error .sigMismatch
    ∧ ((lookupCore edC3 uinfoC3 ['h'] wC3 []).2 = []
        ∨ ∃ names k, (lookupCore edC3 uinfoC3 ['h'] wC3 []).2
            = savePubkey [] ['h'] names k) :=
  ⟨by decide, c3_amended_store_on_mismatch edC3 uinfoC3 ['h'] wC3 [] (by decide)⟩

/-- A successful first contact reduces the lookup to the fetch-and-verify
phase with the advertised key freshly saved and the saved flag set. -/
theorem lookupCore_firstContact (E : EdScheme)
    (uinfo : Bytes → Option ServerInfoData) (host : Str) (w : World)
    (s0 : Store) (sigB : Bytes) (info : ServerInfoData) (pk : Bytes)
    (h1 : getPubkey s0 host = none)
    (h2 : w.infoResp.status = 200)
    (h3 : w.infoResp.sig = some (.enc sigB))
    (h4 : uinfo w.infoResp.body = some info)
    (h5 : renameAudit E s0 w.infoResp.body sigB
            (getPrevSignatures w.infoResp.prev) info.previousNames = .ok ())
    (h6 : info.pubkey = .enc pk) :
    lookupCore E uinfo host w s0
      = fetchVerify E uinfo host w (savePubkey s0 host info.previousNames pk) pk true := by
  simp [lookupCore, getServerInfo, checkResp, getSignature, wireDec,
        h1, h2, h3, h4, h5, h6]

/-- With the saved flag set, the fetch-and-verify phase reads only the
profile response: the server-info response is unreachable behind the
`pubkeySaved` guard. -/
theorem fetchVerify_saved_profResp (E : EdScheme)
    (uinfo : Bytes → Option ServerInfoData) (host : Str) (w w' : World)
    (s : Store) (pk : Bytes) (h : w'.profResp = w.profResp) :
    fetchVerify E uinfo host w' s pk true = fetchVerify E uinfo host w s pk true := by
  unfold fetchVerify
  rw [h]
  simp

/-- C10: at first contact with an empty previous-names list, the client
saves and thereafter trusts the advertised key without any signature
verification over the server-info body: the lookup becomes the profile
fetch with the key saved (for an arbitrary verification oracle, including
one that rejects everything), and its outcome is invariant under
replacing the X-ProfileFed-Sig value, the X-ProfileFed-Previous headers
and the info body, so long as the header stays present and decodable and
the body still advertises the same key with no previous names. -/
theorem c10_tofu_installs_without_verification (E : EdScheme)
    (uinfo : Bytes → Option ServerInfoData) (host : Str) (w : World)
    (s0 : Store) (sigB : Bytes) (info : ServerInfoData) (pk : Bytes)
    (h1 : getPubkey s0 host = none)
    (h2 : w.infoResp.status = 200)
    (h3 : w.infoResp.sig = some (.enc sigB))
    (h4 : uinfo w.infoResp.body = some info)
    (h5 : info.previousNames = [])
    (h6 : info.pubkey = .enc pk) :
    lookupCore E uinfo host w s0
        = fetchVerify E uinfo host w (savePubkey s0 host [] pk) pk true
    ∧ ∀ (w' : World) (sigB' : Bytes) (info' : ServerInfoData),
        w'.profResp = w.profResp →
        w'.infoResp.status = 200 →
        w'.infoResp.sig = some (.enc sigB') →
        uinfo w'.infoResp.body = some info' →
        info'.previousNames = [] →
        info'.pubkey = .enc pk →
        lookupCore E uinfo host w' s0 = lookupCore E uinfo host w s0 := by
  have key : ∀ (v : World) (sb : Bytes) (iv : ServerInfoData),
      v.infoResp.status = 200 → v.infoResp.sig = some (.enc sb) →
      uinfo v.infoResp.body = some iv → iv.previousNames = [] →
      iv.pubkey = .enc pk →
      lookupCore E uinfo host v s0
        = fetchVerify E uinfo host v (savePubkey s0 host [] pk) pk true := by
    intro v sb iv k2 k3 k4 k5 k6
    have hfc := lookupCore_firstContact E uinfo host v s0 sb iv pk h1 k2 k3 k4
      (by rw [k5]; rfl) k6
    rw [k5] at hfc
    exact hfc
  refine ⟨key w sigB info h2 h3 h4 h5 h6, ?_⟩
  intro w' sigB' info' hp k2 k3 k4 k5 k6
  rw [key w' sigB' info' k2 k3 k4 k5 k6, key w sigB info h2 h3 h4 h5 h6]
  exact fetchVerify_saved_profResp E uinfo host w w' (savePubkey s0 host [] pk) pk hp

/-! Concrete scenario used to witness claim C10: the oracle rejects every
signature, the X-ProfileFed-Sig value is not even signature-shaped, and
one X-ProfileFed-Previous header is invalid base64 — the lookup still
installs the advertised key. -/

/-- The C10 oracle rejects every signature. -/
def edC10 : EdScheme := ⟨fun _ _ _ => false⟩

/-- The C10 JSON decoder: the info body advertises key `[3]` with no
previous names. -/
def uinfoC10 : Bytes → Option ServerInfoData :=
  fun b => if b = [70] then some ⟨['h'], [], .enc [3]⟩ else none

/-- The C10 network: the info signature decodes to the two-byte value
`[7,7]`, which no Ed25519 check could ever accept. -/
def wC10 : World :=
  { infoResp := ⟨200, [70], some (.enc [7, 7]), [.invalid]⟩,
    profResp := ⟨200, [71], some (.enc (List.replicate 64 5)), []⟩ }

/-- C10 witness: the theorem evaluated at the C10 scenario. -/
theorem c10_witness :
    getPubkey ([] : Store) ['h'] = none
    ∧ uinfoC10 wC10.infoResp.body = some ⟨['h'], [], .enc [3]⟩
    ∧ lookupCore edC10 uinfoC10 ['h'] wC10 []
        = fetchVerify edC10 uinfoC10 ['h'] wC10 (savePubkey [] ['h'] [] [3]) [3] true :=
  ⟨by decide, by decide,
   (c10_tofu_installs_without_verification edC10 uinfoC10 ['h'] wC10 [] [7, 7]
      ⟨['h'], [], .enc [3]⟩ [3] (by decide) (by decide) (by decide) (by decide)
      (by decide) (by decide)).1⟩

/-- C5: when the stored key fails to verify the profile body, the key was
not saved in the same lookup, the re-fetched server info decodes and
advertises a different key, and no decoded X-ProfileFed-Previous
signature verifies the info body under the stored key, then the rotation
is rejected with SignatureMismatch and the store is unchanged. -/
theorem c5_no_rotation_without_continuity (E : EdScheme)
    (uinfo : Bytes → Option ServerInfoData) (host : Str) (w : World)
    (s0 : Store) (pk profSig : Bytes) (info : ServerInfoData) (newPk : Bytes)
    (h1 : getPubkey s0 host = some pk)
    (h2 : w.profResp.status = 200)
    (h3 : getSignature w.profResp.sig = .ok profSig)
    (h4 : edVerify E pk w.profResp.body profSig = false)
    (h5 : w.infoResp.status = 200)
    (h6 : ∃ infoSig, getSignature w.infoResp.sig = .ok infoSig)
    (h7 : uinfo w.infoResp.body = some info)
    (h8 : wireDec info.pubkey = some newPk)
    (h9 : pk ≠ newPk)
    (h10 : (getPrevSignatures w.infoResp.prev).any
             (fun ps => edVerify E pk w.infoResp.body ps) = false) :
    lookupCore E uinfo host w s0 = (.error .sigMismatch, s0) := by
  obtain ⟨infoSig, h6⟩ := h6
  simp [lookupCore, fetchVerify, getServerInfo, checkResp,
        h1, h2, h3, h4, h5, h6, h7, h8, h9, h10]

/-! Concrete scenario used to witness claim C5: a rotation attempt with no
X-ProfileFed-Previous signatures at all. -/

/-- The C5 oracle rejects every signature. -/
def edC5 : EdScheme := ⟨fun _ _ _ => false⟩

/-- The C5 JSON decoder: the info body advertises the changed key `[2]`. -/
def uinfoC5 : Bytes → Option ServerInfoData :=
  fun b => if b = [60] then some ⟨['h'], [], .enc [2]⟩ else none

/-- The C5 network: a profile response the stored key cannot verify, and a
server-info response carrying no continuity signatures. -/
def wC5 : World :=
  { infoResp := ⟨200, [60], some (.enc (List.replicate 64 1)), []⟩,
    profResp := ⟨200, [61], some (.enc (List.replicate 64 2)), []⟩ }

/-- C5 witness: the theorem evaluated at the C5 scenario. -/
theorem c5_witness :
    getPubkey [(['h'], [1])] ['h'] = some [1]
    ∧ edVerify edC5 [1] wC5.profResp.body (List.replicate 64 2) = false
    ∧ (getPrevSignatures wC5.infoResp.prev).any
        (fun ps => edVerify edC5 [1] wC5.infoResp.body ps) = false
    ∧ lookupCore edC5 uinfoC5 ['h'] wC5 [(['h'], [1])]
        = (.error .sigMismatch, [(['h'], [1])]) :=
  ⟨by decide, by decide, by decide,
   c5_no_rotation_without_continuity edC5 uinfoC5 ['h'] wC5 [(['h'], [1])]
     [1] (List.replicate 64 2) ⟨['h'], [], .enc [2]⟩ [2]
     (by decide) (by decide) (by decide) (by decide) (by decide)
     ⟨List.replicate 64 1, by decide⟩ (by decide) (by decide) (by decide)
     (by decide)⟩

/-- Deleting a name from the default store removes exactly that name's
binding. -/
theorem getPubkey_storeDel (s : Store) (n m : Str) :
    getPubkey (storeDel s n) m = if m = n then none else getPubkey s m := by
  induction s with
  | nil => simp [storeDel, getPubkey]
  | cons e t ih =>
    by_cases hen : e.1 = n <;> by_cases hem : e.1 = m <;>
      simp_all [storeDel, getPubkey, eq_comm]

/-- Folding deletions over a list of names removes exactly those names. -/
theorem getPubkey_foldl_storeDel (l : List Str) (s : Store) (m : Str) :
    getPubkey (l.foldl storeDel s) m = if m ∈ l then none else getPubkey s m := by
  induction l generalizing s with
  | nil => simp
  | cons a t ih =>
    simp only [List.foldl_cons, ih, getPubkey_storeDel]
    by_cases hma : m = a <;> by_cases hmt : m ∈ t <;> simp_all

/-- Storing a binding makes it immediately visible. -/
theorem getPubkey_storeSet_self (s : Store) (n : Str) (k : Bytes) :
    getPubkey (storeSet s n k) n = some k := by
  simp [storeSet, getPubkey]

/-- C6 counterexample: when the server name itself appears among the
previous names, the delete sweep of DefaultClient's SavePubkey runs after
the store and removes the fresh binding, so Get(name) is PubkeyNotFound
rather than the saved key. -/
theorem c6_cex_name_among_previous :
    getPubkey (savePubkey [] ['a'] [['a']] [1]) ['a'] = none
    ∧ ¬ getPubkey (savePubkey [] ['a'] [['a']] [1]) ['a'] = some [1] := by
  decide

/-- C6 as amended: after SavePubkey(name, previous_names, key) on the
default in-memory store, Get(name) returns the key provided the name is
not itself listed among the previous names, and Get(p) is PubkeyNotFound
for every previous name p (when name is listed, the delete sweep wins and
Get(name) is PubkeyNotFound, as the counterexample shows). -/
theorem c6_amended_save_get (s : Store) (name : Str) (prev : List Str) (k : Bytes) :
    (name ∉ prev → getPubkey (savePubkey s name prev k) name = some k)
    ∧ (∀ p ∈ prev, getPubkey (savePubkey s name prev k) p = none) := by
  constructor
  · intro h
    simp [savePubkey, getPubkey_foldl_storeDel, h, getPubkey_storeSet_self]
  · intro p hp
    simp [savePubkey, getPubkey_foldl_storeDel, hp]

/-- C6 witness: the amended statement evaluated on a concrete save. -/
theorem c6_witness :
    (['a'] : Str) ∉ [(['b'] : Str)]
    ∧ getPubkey (savePubkey [] ['a'] [['b']] [1]) ['a'] = some [1]
    ∧ ∀ p ∈ [(['b'] : Str)], getPubkey (savePubkey [] ['a'] [['b']] [1]) p = none :=
  ⟨by decide,
   (c6_amended_save_get [] ['a'] [['b']] [1]).1 (by decide),
   (c6_amended_save_get [] ['a'] [['b']] [1]).2⟩

/-! Concrete scenario used to settle claim C4: a plain successful lookup
whose wire descriptor has an empty role. -/

/-- The C4 oracle: the stored key `[1]` verifies the profile body `[50]`
under the signature of 64 sixes. -/
def edC4 : EdScheme :=
  ⟨fun pk msg sig => pk == [1] && msg == [50] && sig == List.replicate 64 6⟩

/-- The C4 server-info decoder (never consulted on this happy path). -/
def uinfoC4 : Bytes → Option ServerInfoData := fun _ => none

/-- The wire descriptor of the C4 scenario: its role is the empty string. -/
def descC4 : Descriptor := ⟨['i'], [], [], [], [], [], []⟩

/-- The C4 descriptor decoder: the profile body parses to `descC4`. -/
def udescC4 : Bytes → Option Descriptor :=
  fun b => if b = [50] then some descC4 else none

/-- The C4 network: a validly signed profile response. -/
def wC4 : World :=
  { infoResp := ⟨200, [], none, []⟩,
    profResp := ⟨200, [50], some (.enc (List.replicate 64 6)), []⟩ }

/-- C4 counterexample: in the current client (client.go line 274) a
successful single-descriptor lookup returns the decoded descriptor
unchanged, so a wire descriptor with an empty role comes back with an
empty role — not the claimed "user". -/
theorem c4_cex_empty_role_returned :
    (lookupSingle edC4 uinfoC4 udescC4 ['h'] wC4 [(['h'], [1])]).1 = .ok descC4
    ∧ descC4.role = [] := by
  decide

/-- C4 as amended: the current client's single-descriptor lookups return
the descriptor exactly as decoded from the wire, with no role
normalization (so the role may be empty); the empty-role-to-user
normalization exists only in the earlier Client.Lookup variant
(part_004 lines 192-202), whose successful results do always carry a
non-empty role. -/
theorem c4_amended_role_not_normalized :
    (∀ (E : EdScheme) (uinfo : Bytes → Option ServerInfoData)
        (udesc : Bytes → Option Descriptor) (host : Str) (w : World)
        (s0 : Store) (d : Descriptor) (s1 : Store),
        lookupSingle E uinfo udesc host w s0 = (.ok d, s1) →
        ∃ data, (lookupCore E uinfo host w s0).1 = .ok data ∧ udesc data = some d)
    ∧ (∀ (E : EdScheme) (uinfo : Bytes → Option ServerInfoData)
        (udesc : Bytes → Option Descriptor) (host : Str) (w : World)
        (s0 : Store) (d : Descriptor) (s1 : Store),
        lookupSingleOld E uinfo udesc host w s0 = (.ok d, s1) → d.role ≠ []) := by
  constructor
  · intro E uinfo udesc host w s0 d s1 h
    unfold lookupSingle at h
    rcases hl : lookupCore E uinfo host w s0 with ⟨r, s⟩
    rw [hl] at h
    cases r with
    | error e => simp at h
    | ok data =>
      dsimp only at h
      rcases hu : udesc data with _ | d'
      · rw [hu] at h
        simp at h
      · rw [hu] at h
        simp at h
        exact ⟨data, rfl, by rw [hu, h.1]⟩
  · intro E uinfo udesc host w s0 d s1 h
    unfold lookupSingleOld at h
    rcases hl : lookupCore E uinfo host w s0 with ⟨r, s⟩
    rw [hl] at h
    cases r with
    | error e => simp at h
    | ok data =>
      dsimp only at h
      rcases hu : udesc data with _ | d'
      · rw [hu] at h
        simp at h
      · rw [hu] at h
        simp at h
        intro hrole
        rw [← h.1] at hrole
        by_cases hd : d'.role = []
        · rw [if_pos hd] at hrole
          simp [roleUser] at hrole
        · rw [if_neg hd] at hrole
          exact hd hrole

/-- C4 witness: the old-variant half of the amended statement evaluated on
the C4 scenario, where the empty wire role comes back as "user". -/
theorem c4_witness :
    lookupSingleOld edC4 uinfoC4 udescC4 ['h'] wC4 [(['h'], [1])]
        = (.ok ⟨['i'], [], [], [], [], roleUser, []⟩, [(['h'], [1])])
    ∧ (⟨['i'], [], [], [], [], roleUser, []⟩ : Descriptor).role ≠ [] :=
  ⟨by decide,
   c4_amended_role_not_normalized.2 edC4 uinfoC4 udescC4 ['h'] wC4 [(['h'], [1])]
     ⟨['i'], [], [], [], [], roleUser, []⟩ [(['h'], [1])] (by decide)⟩

/-- C7: whenever the profile handler or the server-info handler produces
an output, the X-ProfileFed-Sig header decodes to a signature by the
handler's private key that verifies the exact bytes written as the
response body — the bytes signed equal the bytes written. -/
theorem c7_sig_header_verifies_body :
    (∀ (S : EdSigner) (priv : Bytes) (allQ : Bool) (allRes : Option DescMap)
        (oneRes : Option Descriptor) (marshalMap : DescMap → Option Bytes)
        (marshalDesc : Descriptor → Option Bytes) (out : HandlerOutput),
        profileServeHTTP S priv allQ allRes oneRes marshalMap marshalDesc = some out →
        ∃ sig, wireDec out.sigHdr = some sig
          ∧ edVerify S.toEdScheme (S.pub priv) out.body sig = true)
    ∧ (∀ (S : EdSigner) (marshalInfo : ServerInfoData → Option Bytes)
        (name : Str) (prevNames : List Str) (publicKey priv : Bytes)
        (prevKeys : List Bytes) (out : HandlerOutput),
        serverInfoServeHTTP S marshalInfo name prevNames publicKey priv prevKeys = some out →
        ∃ sig, wireDec out.sigHdr = some sig
          ∧ edVerify S.toEdScheme (S.pub priv) out.body sig = true) := by
  constructor
  · intro S priv allQ allRes oneRes marshalMap marshalDesc out h
    unfold profileServeHTTP at h
    rcases hd : (if allQ then allRes.bind marshalMap else oneRes.bind marshalDesc)
      with _ | data
    · rw [hd] at h
      simp at h
    · rw [hd] at h
      simp at h
      refine ⟨S.sign priv data, ?_, ?_⟩
      · rw [← h]
        simp [wireDec]
      · rw [← h]
        simp [edVerify, S.sign_len, S.verify_sign]
  · intro S marshalInfo name prevNames publicKey priv prevKeys out h
    unfold serverInfoServeHTTP at h
    rcases hd : marshalInfo { serverName := name, previousNames := prevNames,
                              pubkey := .enc publicKey } with _ | data
    · rw [hd] at h
      simp at h
    · rw [hd] at h
      simp at h
      refine ⟨S.sign priv data, ?_, ?_⟩
      · rw [← h]
        simp [wireDec]
      · rw [← h]
        simp [edVerify, S.sign_len, S.verify_sign]

/-- A concrete Ed25519 stand-in used for witnesses: a signature is the
sum of the key and message contents followed by 63 zero bytes. -/
def toySign (sk msg : Bytes) : Bytes :=
  (sk.foldl (fun a b => a + b) 0 + msg.foldl (fun a b => a + b) 0) :: List.replicate 63 0

/-- The concrete signer instance built from `toySign`. -/
def toySigner : EdSigner where
  verifyRaw := fun pk msg sig => decide (sig = toySign (pk.drop 1) msg)
  pub := fun sk => 0 :: sk
  sign := toySign
  sign_len := by
    intro sk msg
    simp [toySign]
  verify_sign := by
    intro sk msg
    simp [toySign]

/-- C7 witness: both handler halves evaluated on concrete inputs with the
concrete signer. -/
theorem c7_witness :
    (profileServeHTTP toySigner [1] false none (some descC4)
        (fun _ => none) (fun _ => some [9])
        = some ⟨[9], .enc (10 :: List.replicate 63 0), []⟩
      ∧ ∃ sig, wireDec (Wire.enc (10 :: List.replicate 63 0)) = some sig
          ∧ edVerify toySigner.toEdScheme (toySigner.pub [1]) [9] sig = true)
    ∧ (serverInfoServeHTTP toySigner (fun _ => some [4]) ['h'] [] [2] [1] [[5]]
        = some ⟨[4], .enc (5 :: List.replicate 63 0), [.enc (9 :: List.replicate 63 0)]⟩
      ∧ ∃ sig, wireDec (Wire.enc (5 :: List.replicate 63 0)) = some sig
          ∧ edVerify toySigner.toEdScheme (toySigner.pub [1]) [4] sig = true) :=
  ⟨⟨by decide,
    c7_sig_header_verifies_body.1 toySigner [1] false none (some descC4)
      (fun _ => none) (fun _ => some [9]) ⟨[9], .enc (10 :: List.replicate 63 0), []⟩
      (by decide)⟩,
   ⟨by decide,
    c7_sig_header_verifies_body.2 toySigner (fun _ => some [4]) ['h'] [] [2] [1] [[5]]
      ⟨[4], .enc (5 :: List.replicate 63 0), [.enc (9 :: List.replicate 63 0)]⟩
      (by decide)⟩⟩

/-- A separator that occurs nowhere in the string makes strings.Cut fail. -/
theorem cutList_eq_none (sep : Char) (s : Str) (h : sep ∉ s) :
    cutList sep s = none := by
  induction s with
  | nil => rfl
  | cons c t ih =>
    simp only [List.mem_cons, not_or] at h
    obtain ⟨h1, h2⟩ := h
    have hcs : ¬ c = sep := fun hc => h1 hc.symm
    simp [cutList, hcs, ih h2]

/-- strings.Cut splits around the first occurrence of the separator. -/
theorem cutList_append (sep : Char) (pre post : Str) (h : sep ∉ pre) :
    cutList sep (pre ++ sep :: post) = some (pre, post) := by
  induction pre with
  | nil => simp [cutList]
  | cons c t ih =>
    simp only [List.mem_cons, not_or] at h
    obtain ⟨h1, h2⟩ := h
    have hcs : ¬ c = sep := fun hc => h1 hc.symm
    simp [cutList, hcs, ih h2]

/-- C8 counterexample: for the input "a@b@c", the code splits around the
first '@' and uses "b@c" as the server, not the right-hand side "c" of
the last '@' as claimed. -/
theorem c8_cex_splits_first_at :
    lookupAcct ['a', '@', 'b', '@', 'c']
        = .ok (acctScheme ++ ['a', '@', 'b', '@', 'c'], ['b', '@', 'c'])
    ∧ (['b', '@', 'c'] : Str) ≠ ['c'] := by
  decide

/-- C8 as amended: LookupAcct splits its input on the first '@' (via
strings.Cut), using everything to the right of that first '@' as the
server; an input with no '@' fails with "invalid acct id"; and the
"acct:" scheme is prepended to the resource when missing. -/
theorem c8_amended_first_at_split :
    (∀ id : Str, '@' ∉ id → lookupAcct id = .error invalidAcctMsg)
    ∧ (∀ pre post : Str, '@' ∉ pre →
        lookupAcct (pre ++ '@' :: post)
          = .ok ((if hasPre (pre ++ '@' :: post) acctScheme
                  then pre ++ '@' :: post
                  else acctScheme ++ (pre ++ '@' :: post)), post)) := by
  constructor
  · intro id h
    simp [lookupAcct, cutList_eq_none '@' id h]
  · intro pre post h
    simp [lookupAcct, cutList_append '@' pre post h]

/-- C8 witness: the amended statement evaluated on "u@ex" (missing scheme,
so "acct:" is prepended) and on the at-free input "nope". -/
theorem c8_witness :
    ('@' ∉ (['u'] : Str))
    ∧ lookupAcct (['u'] ++ '@' :: ['e', 'x'])
        = .ok ((if hasPre (['u'] ++ '@' :: ['e', 'x']) acctScheme
                then ['u'] ++ '@' :: ['e', 'x']
                else acctScheme ++ (['u'] ++ '@' :: ['e', 'x'])), ['e', 'x'])
    ∧ lookupAcct ['n', 'o', 'p', 'e'] = .error invalidAcctMsg :=
  ⟨by decide,
   c8_amended_first_at_split.2 ['u'] ['e', 'x'] (by decide),
   c8_amended_first_at_split.1 ['n', 'o', 'p', 'e'] (by decide)⟩

/-- Stripping the fragment from a fragment-bearing namespace URL yields
the bare URL. -/
theorem cutBefore_append (ns frag : Str) (h : '#' ∉ ns) :
    cutBefore '#' (ns ++ '#' :: frag) = ns := by
  simp [cutBefore, cutList_append '#' ns frag h]

/-- The namespaces step of AddExtra leaves `extra` untouched. -/
theorem addExtraNs_extra (d : Descriptor) (ns : Str) :
    (addExtraNs d ns).extra = d.extra := by
  unfold addExtraNs
  split <;> rfl

/-- After the namespaces step with a fragment-bearing URL whose bare part
occurred at most once, the bare part occurs exactly once. -/
theorem addExtraNs_count (d : Descriptor) (ns frag : Str) (hns : '#' ∉ ns)
    (hcount : d.namespaces.count ns ≤ 1) :
    (addExtraNs d (ns ++ '#' :: frag)).namespaces.count ns = 1 := by
  unfold addExtraNs
  rw [cutBefore_append ns frag hns]
  by_cases hmem : ns ∈ d.namespaces
  · rw [if_pos hmem]
    exact le_antisymm hcount (List.count_pos_iff.mpr hmem)
  · rw [if_neg hmem]
    simp [List.count_append, List.count_eq_zero.mpr hmem]

/-- After a full AddExtra with a fragment-bearing URL whose bare part
occurred at most once, the bare part occurs exactly once. -/
theorem addExtra_count {α : Type} (marshal : α → Option Bytes) (d : Descriptor)
    (ns frag etype : Str) (x : α) (hns : '#' ∉ ns)
    (hcount : d.namespaces.count ns ≤ 1) :
    (addExtra marshal d (ns ++ '#' :: frag) etype x).1.namespaces.count ns = 1 := by
  unfold addExtra
  rcases hm : marshal x with _ | msg
  · exact addExtraNs_count d ns frag hns hcount
  · exact addExtraNs_count d ns frag hns hcount

/-- C9 counterexample: AddExtra never removes duplicates, so on a
descriptor whose namespaces already hold the bare URL twice, a successful
AddExtra leaves two occurrences, not exactly one. -/
theorem c9_cex_preexisting_duplicate :
    ((addExtra (fun _ : Unit => some []) ⟨[], [['u'], ['u']], [], [], [], [], []⟩
        ['u', '#', 'f'] ['t'] ()).2 = true)
    ∧ ¬ ((addExtra (fun _ : Unit => some []) ⟨[], [['u'], ['u']], [], [], [], [], []⟩
        ['u', '#', 'f'] ['t'] ()).1.namespaces.count ['u'] = 1) := by
  decide

/-- C9 as amended: provided the bare namespace URL occurs at most once
beforehand (in particular on any descriptor whose namespaces were only
ever built by AddExtra), a call with a fragment-bearing URL leaves the
bare URL occurring exactly once, and this persists across repeated calls
with differing fragments; the call succeeds exactly when JSON
serialization succeeds, the appended Extra entry keeps the original
fragment-bearing namespace, and a failed call leaves `extra` unchanged. -/
theorem c9_amended_namespace_once {α : Type} (marshal : α → Option Bytes)
    (d : Descriptor) (ns frag etype : Str) (x : α)
    (hns : '#' ∉ ns) (hcount : d.namespaces.count ns ≤ 1) :
    ((addExtra marshal d (ns ++ '#' :: frag) etype x).1.namespaces.count ns = 1)
    ∧ ((addExtra marshal d (ns ++ '#' :: frag) etype x).2 = true
        ↔ ∃ msg, marshal x = some msg)
    ∧ (∀ msg, marshal x = some msg →
        (addExtra marshal d (ns ++ '#' :: frag) etype x).1.extra
          = d.extra ++ [⟨ns ++ '#' :: frag, etype, msg⟩])
    ∧ (marshal x = none →
        (addExtra marshal d (ns ++ '#' :: frag) etype x).1.extra = d.extra)
    ∧ (∀ (frag2 etype2 : Str) (y : α),
        (addExtra marshal (addExtra marshal d (ns ++ '#' :: frag) etype x).1
            (ns ++ '#' :: frag2) etype2 y).1.namespaces.count ns = 1) := by
  refine ⟨addExtra_count marshal d ns frag etype x hns hcount, ?_, ?_, ?_, ?_⟩
  · unfold addExtra
    rcases hm : marshal x with _ | msg <;> simp [hm]
  · intro msg hm
    unfold addExtra
    rw [hm]
    simp [addExtraNs_extra]
  · intro hm
    unfold addExtra
    rw [hm]
    exact addExtraNs_extra d (ns ++ '#' :: frag)
  · intro frag2 etype2 y
    exact addExtra_count marshal _ ns frag2 etype2 y hns
      (le_of_eq (addExtra_count marshal d ns frag etype x hns hcount))

/-- C9 witness: the amended statement evaluated on an empty descriptor
with a serializable payload. -/
theorem c9_witness :
    ('#' ∉ (['u'] : Str))
    ∧ ((⟨[], [], [], [], [], [], []⟩ : Descriptor).namespaces.count ['u'] ≤ 1)
    ∧ (addExtra (fun _ : Unit => some [9]) ⟨[], [], [], [], [], [], []⟩
        (['u'] ++ '#' :: ['f']) ['t'] ()).1.namespaces.count ['u'] = 1 :=
  ⟨by decide, by decide,
   (c9_amended_namespace_once (fun _ : Unit => some [9]) ⟨[], [], [], [], [], [], []⟩
      ['u'] ['f'] ['t'] () (by decide) (by decide)).1⟩


end ProfileFed
